import Mathlib

/-!
Shallow embedding of the generative-bi-poc repository's session client
(src/agents/mcp_client.py) and tool-adapter layer (src/agents/agent.py),
together with theorems settling the specification claims about them.

Asynchronous I/O is modelled by passing the outcome of each external
operation (subprocess spawn, stream open, handshake, remote call) as an
explicit parameter; the trace of transport operations actually performed
is returned alongside the result so that "no I/O happened" is provable.
Python exceptions are modelled as `Except`/`Option String` error values.
-/

namespace GenBI

/-! ## Data model: tool results, tool descriptors -/

/-- One content part of a tool invocation result.  In the MCP data model a
part is either a text part (carrying a `text` attribute) or a non-text part
(image, embedded resource, ...) which has no `text` attribute. -/
inductive ContentPart where
  | text (s : String)
  | nonText (d : String)
deriving DecidableEq

/-- The structured result of a tool invocation: an ordered sequence of
content parts (`result.content` in the source). -/
structure ToolResult where
  content : List ContentPart
deriving DecidableEq

/-- Python rendering of a single content part, used by `strOfResult`. -/
def partStr : ContentPart → String
  | .text s => "TextContent(text=" ++ s ++ ")"
  | .nonText d => "NonTextContent(" ++ d ++ ")"

/-- Model of Python `str(result)`: a stringified dump of the whole result. -/
def strOfResult (r : ToolResult) : String :=
  "CallToolResult(content=[" ++ String.intercalate ", " (r.content.map partStr) ++ "])"

/-- A tool descriptor as reported by the server: a name and an optional
(`Optional[str]`, possibly `None`) human-readable description. -/
structure MCPTool where
  name : String
  description : Option String
deriving DecidableEq

/-! ## Session client state (class DBTMCPClient) -/

/-- The mutable attributes of `DBTMCPClient`: `self.session`,
`self.exit_stack` and `self._connected`.  Handles carry no further
structure so they are modelled as `Option Unit`. -/
structure ClientState where
  session : Option Unit
  exit_stack : Option Unit
  connected : Bool
deriving DecidableEq

/-- `DBTMCPClient.__init__`: all handles unset, flag false. -/
def initClient : ClientState :=
  { session := none, exit_stack := none, connected := false }

/-- Transport / session operations the client can perform, recorded in a
trace so that absence of I/O is expressible. -/
inductive Action where
  | spawnSubprocess
  | openSession
  | handshake
  | listToolsSideEffect
  | acloseStack
  | sessionCallTool (name : String)
  | sessionListTools
deriving DecidableEq

/-- Outcome of the environment during one `connect()` attempt: success, or
a failure at the subprocess spawn, at the session-stream open, or at the
protocol handshake (`session.initialize`). -/
inductive ConnectOutcome where
  | ok
  | failSpawn (e : String)
  | failOpenSession (e : String)
  | failHandshake (e : String)
deriving DecidableEq

/-- Result of a state-mutating client method: the exception re-raised to
the caller (if any), the client state afterwards, and the trace of
transport operations performed. -/
structure StepResult where
  err : Option String
  state : ClientState
  trace : List Action
deriving DecidableEq

/-- `DBTMCPClient.connect` (src/agents/mcp_client.py lines 29-79).
If already connected, returns immediately.  Otherwise it creates a fresh
exit stack, then spawns the subprocess, opens the session stream (which
assigns `self.session`), and performs the handshake; on success it sets the
flag and lists the available tools (failures of that listing are swallowed
inside `_list_available_tools`).  On any failure it closes the exit stack,
resets `self.exit_stack` to `None` - but does not reset `self.session` -
and re-raises. -/
def connect (st : ClientState) (out : ConnectOutcome) : StepResult :=
  if st.connected then
    { err := none, state := st, trace := [] }
  else
    match out with
    | .ok =>
        { err := none
          state := { session := some (), exit_stack := some (), connected := true }
          trace := [.spawnSubprocess, .openSession, .handshake, .listToolsSideEffect] }
    | .failSpawn e =>
        { err := some e
          state := { st with exit_stack := none }
          trace := [.spawnSubprocess, .acloseStack] }
    | .failOpenSession e =>
        { err := some e
          state := { st with exit_stack := none }
          trace := [.spawnSubprocess, .openSession, .acloseStack] }
    | .failHandshake e =>
        { err := some e
          state := { session := some (), exit_stack := none, connected := st.connected }
          trace := [.spawnSubprocess, .openSession, .handshake, .acloseStack] }

/-- `DBTMCPClient.close` (src/agents/mcp_client.py lines 150-165).
When no exit stack is held, the body is skipped entirely.  Otherwise the
stack is closed inside try/except - `acloseFail` is the exception the
close raises, if any; it is only logged - and the `finally` block resets
all three attributes unconditionally. -/
def close (st : ClientState) (acloseFail : Option String) : StepResult :=
  match st.exit_stack with
  | none => { err := none, state := st, trace := [] }
  | some _ =>
      match acloseFail with
      | some _ =>
          { err := none
            state := { session := none, exit_stack := none, connected := false }
            trace := [.acloseStack] }
      | none =>
          { err := none
            state := { session := none, exit_stack := none, connected := false }
            trace := [.acloseStack] }

deriving instance DecidableEq for Except

/-- Result of a non-mutating client method: the value returned or the
exception raised, plus the trace of session operations performed. -/
structure QueryResult (α : Type) where
  out : Except String α
  trace : List Action
deriving DecidableEq

/-- The error message raised by `call_tool` / `list_tools` when the client
is not connected. -/
def notConnectedMsg : String :=
  "Not connected to MCP Server. Call connect() first."

/-- `DBTMCPClient.call_tool` (src/agents/mcp_client.py lines 101-132).
Guard: `if not self._connected or not self.session: raise RuntimeError`.
Otherwise the remote call is performed; a remote failure is logged and
re-raised unchanged. -/
def call_tool (st : ClientState) (name : String)
    (remote : Except String ToolResult) : QueryResult ToolResult :=
  if !st.connected || st.session.isNone then
    { out := .error notConnectedMsg, trace := [] }
  else
    match remote with
    | .ok r => { out := .ok r, trace := [.sessionCallTool name] }
    | .error e => { out := .error e, trace := [.sessionCallTool name] }

/-- `DBTMCPClient.list_tools` (src/agents/mcp_client.py lines 134-148).
Same guard as `call_tool`; otherwise issues the remote list request and
returns `response.tools` unchanged. -/
def list_tools (st : ClientState)
    (remote : Except String (List MCPTool)) : QueryResult (List MCPTool) :=
  if !st.connected || st.session.isNone then
    { out := .error notConnectedMsg, trace := [] }
  else
    match remote with
    | .ok ts => { out := .ok ts, trace := [.sessionListTools] }
    | .error e => { out := .error e, trace := [.sessionListTools] }

/-! ## Global client accessor (get_mcp_client) -/

/-- One `DBTMCPClient` object: an identity (so that "the same instance" is
expressible) together with its mutable state. -/
structure ClientInst where
  cid : Nat
  st : ClientState
deriving DecidableEq

/-- Result of `get_mcp_client`: the exception propagated (if any), the
instance returned (when no exception), the global `_client_instance`
afterwards, and the trace. -/
structure GetClientResult where
  err : Option String
  returned : Option ClientInst
  globalInst : Option ClientInst
  trace : List Action
deriving DecidableEq

/-- `get_mcp_client` (src/agents/mcp_client.py lines 186-210).  `g` is the
global `_client_instance` before the call, `freshId` the identity a newly
constructed client would receive, `out` the environment for a `connect`
attempt (unused when the instance is already connected). -/
def get_mcp_client (g : Option ClientInst) (freshId : Nat)
    (out : ConnectOutcome) : GetClientResult :=
  let inst : ClientInst :=
    match g with
    | none => { cid := freshId, st := initClient }
    | some i => i
  if inst.st.connected then
    { err := none, returned := some inst, globalInst := some inst, trace := [] }
  else
    let r := connect inst.st out
    match r.err with
    | some e =>
        { err := some e, returned := none
          globalInst := some { cid := inst.cid, st := r.state }, trace := r.trace }
    | none =>
        { err := none, returned := some { cid := inst.cid, st := r.state }
          globalInst := some { cid := inst.cid, st := r.state }, trace := r.trace }

/-! ## Tool adapter layer (src/agents/agent.py) -/

/-- Environment of one adapter round trip: the client acquisition
(`get_mcp_client`) fails, the remote call (`client.call_tool`) fails, or
the call succeeds with a result. -/
inductive RoundTrip where
  | acquireFail (e : String)
  | callFail (e : String)
  | okResult (r : ToolResult)
deriving DecidableEq

/-- Python attribute access `part.text`: succeeds on a text part, raises
an AttributeError on any other part. -/
def getTextAttr : ContentPart → Except String String
  | .text s => .ok s
  | .nonText d => .error (d ++ " object has no attribute text")

/-- The inner async `_call` of `sync_call_mcp_tool` (src/agents/agent.py
lines 66-73): acquire the client, call the tool, then
`if result.content: return result.content[0].text` else `return str(result)`. -/
def call_inner (rt : RoundTrip) : Except String String :=
  match rt with
  | .acquireFail e => .error e
  | .callFail e => .error e
  | .okResult r =>
      match r.content with
      | [] => .ok (strOfResult r)
      | p :: _ =>
          match getTextAttr p with
          | .ok s => .ok s
          | .error e => .error e

/-- The error string built by the adapter's except-branch:
`f"Error calling MCP tool ...: ..."` with the tool name and the reason. -/
def mcpErrorString (name e : String) : String :=
  "Error calling MCP tool " ++ name ++ ": " ++ e

/-- `sync_call_mcp_tool` (src/agents/agent.py lines 64-88): run the round
trip to completion; any exception is caught and converted into the error
string. -/
def sync_call_mcp_tool (name : String) (rt : RoundTrip) : String :=
  match call_inner rt with
  | .ok s => s
  | .error e => mcpErrorString name e

/-- The adapter produced for one tool: a `StructuredTool` whose behaviour
is `sync_call_mcp_tool` for the bound name; only name and description are
data. -/
structure StructuredTool where
  name : String
  description : String
deriving DecidableEq

/-- Python truthiness used at `tool_description or default`: `None` and
the empty string are falsy. -/
def pyOrDefault (d : Option String) (dflt : String) : String :=
  match d with
  | none => dflt
  | some s => if s = "" then dflt else s

/-- `create_mcp_tool_wrapper` (src/agents/agent.py lines 51-97): builds a
`StructuredTool` named after the tool whose description is
`tool_description or f"MCP tool: ..."`. -/
def create_mcp_tool_wrapper (tool_name : String) (tool_description : Option String) :
    StructuredTool :=
  { name := tool_name
    description := pyOrDefault tool_description ("MCP tool: " ++ tool_name) }

/-- The progress print at src/agents/agent.py line 121 slices
`mcp_tool.description[:60]`; on a `None` description this raises a
TypeError which propagates out of `discover_mcp_tools`. -/
def descSlice : Option String → Except String String
  | none => .error "TypeError: NoneType object is not subscriptable"
  | some s => .ok (s.take 60)

/-- The per-descriptor loop of `discover_mcp_tools` (src/agents/agent.py
lines 118-133): for each descriptor, print (slicing the description), then
create the wrapper and append it. -/
def discover_loop : List MCPTool → Except String (List StructuredTool)
  | [] => .ok []
  | t :: rest =>
      match descSlice t.description with
      | .error e => .error e
      | .ok _ =>
          match discover_loop rest with
          | .error e => .error e
          | .ok l => .ok (create_mcp_tool_wrapper t.name t.description :: l)

/-- `discover_mcp_tools` (src/agents/agent.py lines 100-133), parameterised
by the tool list the connected client's `list_tools` returned. -/
def discover_mcp_tools (tools : List MCPTool) : Except String (List StructuredTool) :=
  discover_loop tools

/-! ## Orchestration wrapper (ask_agent) -/

/-- A Python value as far as `ask_agent` can observe it: a string or some
other object (e.g. a structured content list). -/
inductive PyVal where
  | str (s : String)
  | other (d : String)
deriving DecidableEq

/-- One message of the result sequence: its `type` tag and its `content`. -/
structure Msg where
  type : String
  content : PyVal
deriving DecidableEq

/-- The reverse-scan loop of `ask_agent` (src/agents/agent.py lines
209-213), already given the reversed message list: return the content of
the first message typed `ai`, or of the first message whose content is a
string; otherwise keep scanning. -/
def extract_loop : List Msg → Option PyVal
  | [] => none
  | m :: rest =>
      if m.type = "ai" then some m.content
      else
        match m.content with
        | .str s => some (.str s)
        | .other _ => extract_loop rest

/-- The answer-extraction part of `ask_agent` (src/agents/agent.py lines
205-215): scan the messages in reverse; if the scan yields nothing,
fall back to `str(result)` (passed here as `resultDump`). -/
def ask_agent (messages : List Msg) (resultDump : String) : PyVal :=
  match extract_loop messages.reverse with
  | some v => v
  | none => .str resultDump

/-! ## Spec-side definitions (for refinement comparisons)

These follow the wording of the specification, not the source, and exist
only to be compared against the source-derived definitions above. -/

/-- Spec wording for the adapter result: "the first text payload found in
the result, or a stringified fallback if no text part exists". -/
def spec_firstTextPayload (r : ToolResult) : String :=
  match r.content.filterMap (fun p => match p with | .text s => some s | .nonText _ => none) with
  | s :: _ => s
  | [] => strOfResult r

/-- Spec wording for `ask_agent`: "the latest assistant-authored text;
if no assistant text is found, a stringified dump of the full result". -/
def spec_latestAssistantText (messages : List Msg) (resultDump : String) : PyVal :=
  match messages.reverse.find? (fun m => m.type = "ai") with
  | some m => m.content
  | none => .str resultDump

/-- Spec wording for discovery: "one adapter per descriptor, preserving
name and description" (a missing description taken as empty). -/
def spec_adapters (tools : List MCPTool) : List StructuredTool :=
  tools.map (fun t => { name := t.name, description := t.description.getD "" })

/-- A message qualifies for the code's reverse scan when it is
assistant-typed or its content is a string. -/
def qualifies (m : Msg) : Bool :=
  m.type = "ai" ||
    match m.content with
    | .str _ => true
    | .other _ => false

/-- The session-client invariant of claim C10: a connected client holds
both a session handle and an exit stack. -/
def ClientInv (st : ClientState) : Prop :=
  st.connected = true → st.session.isSome ∧ st.exit_stack.isSome

/-! ## Theorems for the claims -/

/-- C1: whenever the connection flag is false, `call_tool` (for any tool
name, any argument mapping, any would-be remote behaviour) and
`list_tools` both fail immediately with the not-connected error and
perform no transport operation at all. -/
theorem call_requires_connection (st : ClientState) (name : String)
    (remoteC : Except String ToolResult) (remoteL : Except String (List MCPTool))
    (h : st.connected = false) :
    call_tool st name remoteC = { out := .error notConnectedMsg, trace := [] } ∧
    list_tools st remoteL = { out := .error notConnectedMsg, trace := [] } := by
  constructor <;> simp [call_tool, list_tools, h]

/-- Witness for C1 at a concrete disconnected state. -/
theorem call_requires_connection_witness :
    initClient.connected = false ∧
    call_tool initClient "list_models" (.ok { content := [] }) =
      { out := .error notConnectedMsg, trace := [] } ∧
    list_tools initClient (.ok []) = { out := .error notConnectedMsg, trace := [] } :=
  ⟨rfl, call_requires_connection initClient "list_models" (.ok { content := [] }) (.ok []) rfl⟩

/-- C7: calling `connect` while the connection flag is already true is a
no-op: no error, state unchanged (the flag stays true) and an empty trace,
so in particular no second subprocess is spawned and no handshake is
re-run. -/
theorem connect_idempotent_when_connected (st : ClientState) (out : ConnectOutcome)
    (h : st.connected = true) :
    connect st out = { err := none, state := st, trace := [] } := by
  simp [connect, h]

/-- Witness for C7 at a concrete connected state. -/
theorem connect_idempotent_when_connected_witness :
    (⟨some (), some (), true⟩ : ClientState).connected = true ∧
    connect ⟨some (), some (), true⟩ ConnectOutcome.ok =
      { err := none, state := ⟨some (), some (), true⟩, trace := [] } :=
  ⟨rfl, connect_idempotent_when_connected ⟨some (), some (), true⟩ ConnectOutcome.ok rfl⟩

/-- C8: `close` never raises, whatever the prior state and whatever the
teardown does: the propagated error is always `none`; on a client holding
no exit stack (in particular one never connected) it is a no-op; otherwise
it closes the stack and resets session, exit stack and flag to their
initial values, even when the teardown itself raises. -/
theorem close_never_raises (st : ClientState) (acloseFail : Option String) :
    (close st acloseFail).err = none ∧
    (st.exit_stack = none → close st acloseFail = { err := none, state := st, trace := [] }) ∧
    (st.exit_stack.isSome = true →
      (close st acloseFail).state = { session := none, exit_stack := none, connected := false } ∧
      Action.acloseStack ∈ (close st acloseFail).trace) := by
  unfold close
  cases st.exit_stack <;> cases acloseFail <;> simp

/-- Witness for C8: a never-connected client (no-op) and a connected
client whose teardown raises (still resets, no propagation). -/
theorem close_never_raises_witness :
    ((close initClient none).err = none ∧
      close initClient none = { err := none, state := initClient, trace := [] }) ∧
    ((close ⟨some (), some (), true⟩ (some "teardown boom")).err = none ∧
      (close ⟨some (), some (), true⟩ (some "teardown boom")).state =
        { session := none, exit_stack := none, connected := false } ∧
      Action.acloseStack ∈ (close ⟨some (), some (), true⟩ (some "teardown boom")).trace) :=
  ⟨⟨(close_never_raises initClient none).1,
    (close_never_raises initClient none).2.1 rfl⟩,
   ⟨(close_never_raises ⟨some (), some (), true⟩ (some "teardown boom")).1,
    (close_never_raises ⟨some (), some (), true⟩ (some "teardown boom")).2.2 rfl⟩⟩

/-- C6 counterexample: when the handshake fails on a fresh client, the
session handle is NOT back in its initial unset state - the failure path
resets only the exit stack, leaving the dead session reference behind. -/
theorem connect_failure_session_cex :
    (connect initClient (ConnectOutcome.failHandshake "handshake boom")).state.session = some () ∧
    initClient.session = none ∧
    (connect initClient (ConnectOutcome.failHandshake "handshake boom")).state.session ≠
      initClient.session := by
  decide

/-- C6 amended: on any failure during the connect sequence (spawn, stream
open, handshake), `connect` re-raises the failure, closes the scoped
resource stack, leaves the connection flag false and resets the exit-stack
handle to its initial unset state; the session handle, however, is not
reset and may retain a reference when the failure occurred after session
creation. -/
theorem connect_failure_cleanup (st : ClientState) (e : String) (out : ConnectOutcome)
    (hst : st.connected = false)
    (hout : out = .failSpawn e ∨ out = .failOpenSession e ∨ out = .failHandshake e) :
    (connect st out).err = some e ∧
    (connect st out).state.connected = false ∧
    (connect st out).state.exit_stack = none ∧
    Action.acloseStack ∈ (connect st out).trace := by
  rcases hout with h | h | h <;> subst h <;> simp [connect, hst]

/-- Witness for C6 (amended) at a concrete fresh client and a handshake
failure. -/
theorem connect_failure_cleanup_witness :
    initClient.connected = false ∧
    (connect initClient (ConnectOutcome.failHandshake "x")).err = some "x" ∧
    (connect initClient (ConnectOutcome.failHandshake "x")).state.connected = false ∧
    (connect initClient (ConnectOutcome.failHandshake "x")).state.exit_stack = none ∧
    Action.acloseStack ∈ (connect initClient (ConnectOutcome.failHandshake "x")).trace :=
  ⟨rfl, connect_failure_cleanup initClient "x" (ConnectOutcome.failHandshake "x") rfl
    (Or.inr (Or.inr rfl))⟩

/-- C9: `get_mcp_client` always hands back a connected instance (when the
connect attempt the environment provides succeeds): with no global
instance it constructs a fresh one and connects it; with an existing but
disconnected instance it reconnects that same instance (same identity)
rather than discarding it; with an already-connected instance it returns
it unchanged and performs no transport operation. -/
theorem get_client_always_connected (g : Option ClientInst) (freshId : Nat)
    (out : ConnectOutcome) (hout : out = ConnectOutcome.ok) :
    (∃ j, (get_mcp_client g freshId out).returned = some j ∧ j.st.connected = true) ∧
    (g = none → ∃ j, (get_mcp_client g freshId out).returned = some j ∧
      j.cid = freshId ∧ j.st.connected = true) ∧
    (∀ i, g = some i → ∃ j, (get_mcp_client g freshId out).returned = some j ∧
      j.cid = i.cid ∧ j.st.connected = true) ∧
    (∀ i, g = some i → i.st.connected = true →
      (get_mcp_client g freshId out).returned = some i ∧
      (get_mcp_client g freshId out).trace = []) := by
  subst hout
  cases g with
  | none =>
      refine ⟨⟨⟨freshId, ⟨some (), some (), true⟩⟩, ?_, rfl⟩, ?_, ?_, ?_⟩ <;>
        simp [get_mcp_client, connect, initClient]
  | some i =>
      by_cases hc : i.st.connected = true
      · refine ⟨⟨i, ?_, hc⟩, by simp, ?_, ?_⟩ <;>
          simp [get_mcp_client, hc]
      · refine ⟨⟨⟨i.cid, ⟨some (), some (), true⟩⟩, ?_, rfl⟩, by simp, ?_, ?_⟩ <;>
          simp [get_mcp_client, connect, hc]

/-- Witness for C9: a fresh global (constructs and connects) and an
existing disconnected instance (reconnected, identity 5 preserved). -/
theorem get_client_always_connected_witness :
    (∃ j, (get_mcp_client none 9 ConnectOutcome.ok).returned = some j ∧
      j.cid = 9 ∧ j.st.connected = true) ∧
    (∃ j, (get_mcp_client (some ⟨5, initClient⟩) 9 ConnectOutcome.ok).returned = some j ∧
      j.cid = 5 ∧ j.st.connected = true) :=
  ⟨(get_client_always_connected none 9 ConnectOutcome.ok rfl).2.1 rfl,
   (get_client_always_connected (some ⟨5, initClient⟩) 9 ConnectOutcome.ok rfl).2.2.1
     ⟨5, initClient⟩ rfl⟩

/-- C10: the invariant "connected implies both the session handle and the
exit stack are held" is satisfied initially and preserved by `connect`
(all outcomes) and `close` (`call_tool` and `list_tools` do not mutate the
state); under the invariant the guard branch that would reject a connected
client with a missing session is unreachable - both operations always
reach their session call. -/
theorem client_invariant_preserved (st : ClientState) :
    ClientInv initClient ∧
    (∀ out, ClientInv st → ClientInv (connect st out).state) ∧
    (∀ f, ClientInv st → ClientInv (close st f).state) ∧
    (∀ name remoteC remoteL, ClientInv st → st.connected = true →
      (call_tool st name remoteC).trace = [Action.sessionCallTool name] ∧
      (list_tools st (remoteL : Except String (List MCPTool))).trace =
        [Action.sessionListTools]) := by
  refine ⟨fun h => by simp [initClient] at h, ?_, ?_, ?_⟩
  · intro out hinv
    by_cases hc : st.connected = true
    · simpa [connect, hc] using hinv
    · cases out <;> intro h <;>
        simp_all [connect, ClientInv]
  · intro f hinv
    unfold close
    cases st.exit_stack <;> cases f <;> first
      | exact hinv
      | (intro h; simp_all)
  · intro name remoteC remoteL hinv hc
    obtain ⟨hs, _⟩ := hinv hc
    obtain ⟨u, hu⟩ := Option.isSome_iff_exists.mp hs
    constructor
    · cases remoteC <;> simp [call_tool, hc, hu]
    · cases remoteL <;> simp [list_tools, hc, hu]

/-- Witness for C10 at a concrete connected state satisfying the
invariant. -/
theorem client_invariant_preserved_witness :
    ClientInv (⟨some (), some (), true⟩ : ClientState) ∧
    ClientInv (connect ⟨some (), some (), true⟩ ConnectOutcome.ok).state ∧
    ClientInv (close ⟨some (), some (), true⟩ none).state ∧
    (call_tool ⟨some (), some (), true⟩ "t" (.ok { content := [] })).trace =
      [Action.sessionCallTool "t"] ∧
    (list_tools ⟨some (), some (), true⟩ (.ok [])).trace = [Action.sessionListTools] :=
  have hinv : ClientInv (⟨some (), some (), true⟩ : ClientState) := fun _ => ⟨rfl, rfl⟩
  ⟨hinv,
   (client_invariant_preserved ⟨some (), some (), true⟩).2.1 ConnectOutcome.ok hinv,
   (client_invariant_preserved ⟨some (), some (), true⟩).2.2.1 none hinv,
   ((client_invariant_preserved ⟨some (), some (), true⟩).2.2.2 "t"
     (.ok { content := [] }) (.ok []) hinv rfl).1,
   ((client_invariant_preserved ⟨some (), some (), true⟩).2.2.2 "t"
     (.ok { content := [] }) (.ok []) hinv rfl).2⟩

/-- C2 counterexample: on a successful round trip whose result starts
with a non-text part followed by a text part, the wrapper does not return
the first text payload found ("x") - the blind `content[0].text` access
raises and the wrapper yields an error string instead. -/
theorem sync_call_text_extraction_cex :
    sync_call_mcp_tool "t" (.okResult { content := [.nonText "img", .text "x"] }) =
      "Error calling MCP tool t: img object has no attribute text" ∧
    spec_firstTextPayload { content := [.nonText "img", .text "x"] } = "x" ∧
    ("Error calling MCP tool t: img object has no attribute text" : String) ≠ "x" := by
  decide

/-- C2 amended: on a successful round trip, the wrapper returns the first
text payload (agreeing with the spec-side extraction) whenever the content
is empty (stringified fallback) or starts with a text part; when the first
content part is not a text part the attribute access fails and the wrapper
returns a tool error string - in every case a string, never a raw
non-text value. -/
theorem sync_call_text_extraction (name : String) (r : ToolResult) :
    ((r.content = [] ∨ ∃ s rest, r.content = ContentPart.text s :: rest) →
      sync_call_mcp_tool name (.okResult r) = spec_firstTextPayload r) ∧
    (∀ d rest, r.content = ContentPart.nonText d :: rest →
      ∃ e, sync_call_mcp_tool name (.okResult r) = mcpErrorString name e) := by
  constructor
  · rintro (h | ⟨s, rest, h⟩) <;>
      simp [sync_call_mcp_tool, call_inner, spec_firstTextPayload, h, getTextAttr]
  · rintro d rest h
    exact ⟨d ++ " object has no attribute text",
      by simp [sync_call_mcp_tool, call_inner, h, getTextAttr]⟩

/-- Witness for C2 (amended): a result whose first part is text, and one
whose only part is non-text. -/
theorem sync_call_text_extraction_witness :
    sync_call_mcp_tool "t" (.okResult { content := [.text "a"] }) =
      spec_firstTextPayload { content := [.text "a"] } ∧
    ∃ e, sync_call_mcp_tool "u" (.okResult { content := [.nonText "img"] }) =
      mcpErrorString "u" e :=
  ⟨(sync_call_text_extraction "t" { content := [.text "a"] }).1 (Or.inr ⟨"a", [], rfl⟩),
   (sync_call_text_extraction "u" { content := [.nonText "img"] }).2 "img" [] rfl⟩

/-- C4: whenever the inner round trip raises (client acquisition, the
remote call, or the text extraction), the wrapper does not propagate the
exception: it returns the error string, which contains the tool name and
the failure reason. -/
theorem sync_call_catches_errors (name : String) (rt : RoundTrip) (e : String)
    (h : call_inner rt = .error e) :
    sync_call_mcp_tool name rt = mcpErrorString name e ∧
    ∃ pre mid, sync_call_mcp_tool name rt = pre ++ name ++ mid ++ e := by
  refine ⟨?_, "Error calling MCP tool ", ": ", ?_⟩ <;>
    simp [sync_call_mcp_tool, h, mcpErrorString]

/-- Witness for C4 at a failing remote call. -/
theorem sync_call_catches_errors_witness :
    call_inner (RoundTrip.callFail "boom") = .error "boom" ∧
    sync_call_mcp_tool "t" (RoundTrip.callFail "boom") = mcpErrorString "t" "boom" ∧
    ∃ pre mid, sync_call_mcp_tool "t" (RoundTrip.callFail "boom") = pre ++ "t" ++ mid ++ "boom" :=
  ⟨rfl, sync_call_catches_errors "t" (RoundTrip.callFail "boom") "boom" rfl⟩

/-- C5 counterexample: a descriptor with an empty description is not
preserved unchanged - the adapter gets the default description
"MCP tool: t" instead of the empty string. -/
theorem discover_adapters_cex :
    discover_mcp_tools [{ name := "t", description := some "" }] =
      .ok [{ name := "t", description := "MCP tool: t" }] ∧
    spec_adapters [{ name := "t", description := some "" }] =
      [{ name := "t", description := "" }] ∧
    ("MCP tool: t" : String) ≠ "" := by
  decide

/-- Helper: a successful discovery maps each descriptor to its wrapper. -/
theorem discover_loop_ok (tools : List MCPTool) (l : List StructuredTool)
    (h : discover_loop tools = .ok l) :
    l = tools.map (fun t => create_mcp_tool_wrapper t.name t.description) := by
  induction tools generalizing l with
  | nil =>
      simp [discover_loop] at h
      simp [h]
  | cons t rest ih =>
      cases hd : t.description with
      | none => simp [discover_loop, descSlice, hd] at h
      | some s =>
          simp only [discover_loop, descSlice, hd] at h
          cases hr : discover_loop rest with
          | error e => simp [hr] at h
          | ok l' =>
              simp only [hr, Except.ok.injEq] at h
              subst h
              simp [List.map_cons, ih l' hr, hd]

/-- C5 amended: a successful discovery produces exactly one adapter per
descriptor, in the same order, each preserving the descriptor name
unchanged and the description unchanged whenever it is non-empty; an empty
description is replaced by the default "MCP tool: <name>" (and a missing
description makes discovery fail, so it never reaches an adapter). -/
theorem discover_adapters_per_descriptor (tools : List MCPTool)
    (l : List StructuredTool) (h : discover_mcp_tools tools = .ok l) :
    l.length = tools.length ∧
    ∀ i : Nat, l[i]? = (tools[i]?).map
      (fun t => { name := t.name
                  description :=
                    match t.description with
                    | none => "MCP tool: " ++ t.name
                    | some s => if s = "" then "MCP tool: " ++ t.name else s }) := by
  have hmap := discover_loop_ok tools l h
  have hfun : (fun t : MCPTool => create_mcp_tool_wrapper t.name t.description) =
      (fun t : MCPTool =>
        ({ name := t.name
           description :=
             match t.description with
             | none => "MCP tool: " ++ t.name
             | some s => if s = "" then "MCP tool: " ++ t.name else s } : StructuredTool)) := by
    funext t
    cases t.description <;> simp [create_mcp_tool_wrapper, pyOrDefault]
  subst hmap
  rw [hfun]
  exact ⟨List.length_map _ _, fun i => List.getElem?_map ..⟩

/-- Witness for C5 (amended): one descriptor with a kept description and
one with an empty description, adapter list checked at both indices. -/
theorem discover_adapters_per_descriptor_witness :
    discover_mcp_tools [{ name := "a", description := some "descA" },
                        { name := "b", description := some "" }] =
      .ok [{ name := "a", description := "descA" },
           { name := "b", description := "MCP tool: b" }] ∧
    ([{ name := "a", description := "descA" },
      { name := "b", description := "MCP tool: b" }] : List StructuredTool).length =
      ([{ name := "a", description := some "descA" },
        { name := "b", description := some "" }] : List MCPTool).length ∧
    ([{ name := "a", description := "descA" },
      { name := "b", description := "MCP tool: b" }] : List StructuredTool)[1]? =
      (([{ name := "a", description := some "descA" },
         { name := "b", description := some "" }] : List MCPTool)[1]?).map
        (fun t => { name := t.name
                    description :=
                      match t.description with
                      | none => "MCP tool: " ++ t.name
                      | some s => if s = "" then "MCP tool: " ++ t.name else s }) :=
  ⟨by decide,
   (discover_adapters_per_descriptor _ _ (by decide)).1,
   (discover_adapters_per_descriptor _ _ (by decide)).2 1⟩

/-- C3 counterexample: when a non-assistant message with string content
follows the last assistant message, `ask_agent` returns that non-assistant
text instead of the latest assistant text. -/
theorem ask_agent_scan_cex :
    ask_agent [{ type := "ai", content := .str "a" },
               { type := "tool", content := .str "t" }] "dump" = PyVal.str "t" ∧
    spec_latestAssistantText [{ type := "ai", content := .str "a" },
                              { type := "tool", content := .str "t" }] "dump" = PyVal.str "a" ∧
    PyVal.str "t" ≠ PyVal.str "a" := by
  decide

/-- Helper: the reverse-scan loop returns the content of the first message
that is assistant-typed or string-valued. -/
theorem extract_loop_eq_find (l : List Msg) :
    extract_loop l = (l.find? qualifies).map Msg.content := by
  induction l with
  | nil => rfl
  | cons m rest ih =>
      by_cases h : m.type = "ai"
      · simp [extract_loop, qualifies, h, List.find?]
      · cases hc : m.content with
        | str s => simp [extract_loop, qualifies, h, hc, List.find?]
        | other d => simp [extract_loop, qualifies, h, hc, List.find?, ih]

/-- C3 amended: `ask_agent` returns the content of the latest message
(scanning the sequence in reverse) that is assistant-typed or whose
content is a string - so it can surface non-assistant text - and falls
back to the stringified dump exactly when no message qualifies. -/
theorem ask_agent_scan_characterization (messages : List Msg) (resultDump : String) :
    ask_agent messages resultDump =
      match messages.reverse.find? qualifies with
      | some m => m.content
      | none => PyVal.str resultDump := by
  unfold ask_agent
  rw [extract_loop_eq_find]
  cases messages.reverse.find? qualifies <;> rfl

end GenBI
